import Mathlib

/-
Verification of the inference core of scl-machine:
TemplateExpressionNode (check / compute / generate) and
FormulasIterationStrategyTarget::applyIterationStrategy, embedded shallowly.
The host graph store (template searcher, template manager, sc-memory context)
is an external collaborator and is represented by explicit gateway records;
the control flow of the two source files is translated statement by statement.
-/

namespace Scl

/-- NodeId of the host graph store (ScAddr): an abstract copy-cheap handle. -/
abbrev ScAddr := Nat

/-- Binding table (Replacements): a map from variable name to a positionally
aligned column of ScAddrs, represented as an association list. -/
abbrev Replacements := List (String × List ScAddr)

/-- VariableAssignment (ScTemplateParams): a map from variable name to one
concrete ScAddr, represented as an association list. -/
abbrev ScTemplateParams := List (String × ScAddr)

/-- Lookup of a name in an association list, mirroring std::map::find and
ScTemplateParams::Get. -/
def lookupName (n : String) : List (String × α) → Option α
  | [] => none
  | (k, v) :: rest => if k = n then some v else lookupName n rest

/-- Number of rows of a binding table: the column length of its first
variable (all columns are equal by the Replacements invariant). -/
def rowCount (r : Replacements) : Nat :=
  match r with
  | [] => 0
  | (_, vs) :: _ => vs.length

/-- Modelled from the spec: ReplacementsUtils::getKeySet, absent from src.
The spec calls it keyNames: the set of variable names present in a table. -/
def getKeySet (r : Replacements) : List String :=
  (r.map (fun kv => kv.1)).eraseDups

/-- Modelled from the spec: ReplacementsUtils::getReplacementsToScTemplateParams,
absent from src. The spec calls it toAssignmentRows: transpose the column
table into one VariableAssignment per row. -/
def getReplacementsToScTemplateParams (r : Replacements) : List ScTemplateParams :=
  (List.range (rowCount r)).map
    (fun i => r.filterMap (fun kv => (kv.2.get? i).map (fun a => (kv.1, a))))

/-- Modelled from the spec: ReplacementsUtils::uniteReplacements, absent from
src. Concatenates the rows of both tables under their common variable names;
an empty table unites as identity; the key-mismatch error case of the spec is
represented by the empty table (no claim exercises it). -/
def uniteReplacements (a b : Replacements) : Replacements :=
  if rowCount a = 0 then b
  else if rowCount b = 0 then a
  else if getKeySet a = getKeySet b then
    a.map (fun kv => (kv.1, kv.2 ++ ((lookupName kv.1 b).getD [])))
  else []

/-- Modelled from the spec: the LogicFormulaResult struct, declared in a
header absent from src; fields value, isGenerated, replacements, with the
C++ default initialization of bools taken as false. -/
structure LogicFormulaResult where
  value : Bool := false
  isGenerated : Bool := false
  replacements : Replacements := []
deriving DecidableEq, Repr

/-- Modelled from the spec: the LogicExpressionResult struct returned by
check, declared in a header absent from src; fields in declaration order
value, hasSearchResult, replacements, formulaTemplate. -/
structure LogicExpressionResult where
  value : Bool
  hasSearchResult : Bool
  replacements : Replacements
  formulaTemplate : ScAddr
deriving DecidableEq, Repr

/-- Result of ScMemoryContext::HelperGenTemplate: the variable bindings the
store resolved during the write (GetReplacements) and the list of created
elements (indexed access and Size). External collaborator data. -/
structure ScTemplateGenResult where
  bindings : List (String × ScAddr)
  elements : List ScAddr
deriving DecidableEq, Repr

/-- Gateway consumed by TemplateExpressionNode: the template searcher,
template manager and sc-memory context, all external collaborators of the
core (spec section 6). The store state has type sigma; searches are pure,
genTemplate returns the success flag, the generation result and the new
store, addToSet registers an element into an output structure. -/
structure GenGateway (σ : Type) where
  searchTemplate : ScAddr → ScTemplateParams → σ → Replacements
  searchTemplateBatch : ScAddr → List ScTemplateParams → σ → Replacements
  getVarNames : ScAddr → List String
  createTemplateParams : ScAddr → List ScAddr → List ScTemplateParams
  genTemplate : ScAddr → ScTemplateParams → σ → Bool × ScTemplateGenResult × σ
  addToSet : ScAddr → ScAddr → σ → σ

/-- TemplateExpressionNode::check, translated from src: searches the formula
template under the given params and returns a LogicExpressionResult whose
value and hasSearchResult fields are the literal constants of the source
return statement. No write is performed. -/
def check (G : GenGateway σ) (formulaTemplate : ScAddr) (params : ScTemplateParams)
    (s : σ) : LogicExpressionResult :=
  let searchResult := G.searchTemplate formulaTemplate params s
  { value := true, hasSearchResult := true, replacements := searchResult,
    formulaTemplate := formulaTemplate }

/-- TemplateExpressionNode::compute, translated from src: if the argument
vector is not empty, search with the params created from it, else search with
empty params; the passed-in result record keeps its isGenerated field and
receives the replacements and their non-emptiness as value. -/
def compute (G : GenGateway σ) (formulaTemplate : ScAddr) (argumentVector : List ScAddr)
    (result : LogicFormulaResult) (s : σ) : LogicFormulaResult :=
  let replacements :=
    if !argumentVector.isEmpty then
      G.searchTemplateBatch formulaTemplate
        (G.createTemplateParams formulaTemplate argumentVector) s
    else
      G.searchTemplate formulaTemplate [] s
  { result with replacements := replacements, value := !replacements.isEmpty }

/-- Inner loop of TemplateExpressionNode::generate over varNames (src lines
131 to 146): for each name take the value from the generation result
bindings first, else from the template params, else throw the
invalid-state exception with the source message. -/
def buildTemporal (names : List String) (gr : ScTemplateGenResult)
    (p : ScTemplateParams) : Except String Replacements :=
  match names with
  | [] => .ok []
  | n :: rest =>
    match lookupName n gr.bindings with
    | some a => (buildTemporal rest gr p).map (fun t => (n, [a]) :: t)
    | none =>
      match lookupName n p with
      | some a => (buildTemporal rest gr p).map (fun t => (n, [a]) :: t)
      | none =>
        .error ("generation result and template params do not have replacement for " ++ n)

/-- Registration loop of TemplateExpressionNode::generate (src lines 150 to
155): every element of the generation result is added to the output
structure via utils::GenerationUtils::addToSet. -/
def registerElements (G : GenGateway σ) (outputStructure : ScAddr)
    (elements : List ScAddr) (s : σ) : σ :=
  elements.foldl (fun st e => G.addToSet outputStructure e st) s

/-- Row loop of TemplateExpressionNode::generate (src lines 111 to 157),
translated statement by statement: break when generateOnlyFirst and a prior
success; skip a row whose pre-write search is non-empty; otherwise call
HelperGenTemplate, and on success set value and isGenerated, build the
temporal replacements over varNames (propagating the exception) and unite
them into the accumulator; in both commit outcomes register the generation
result elements into the output structure. Returns the result, the success
count and the final store. -/
def generateLoop (G : GenGateway σ) (formulaTemplate outputStructure : ScAddr)
    (generateOnlyFirst : Bool) (varNames : List String) :
    List ScTemplateParams → LogicFormulaResult → Nat → σ →
    Except String (LogicFormulaResult × Nat × σ)
  | [], result, count, s => .ok (result, count, s)
  | p :: rest, result, count, s =>
    if generateOnlyFirst && result.isGenerated then .ok (result, count, s)
    else if (G.searchTemplate formulaTemplate p s).isEmpty then
      let t := G.genTemplate formulaTemplate p s
      if t.1 then
        match buildTemporal varNames t.2.1 p with
        | .error e => .error e
        | .ok temporal =>
          generateLoop G formulaTemplate outputStructure generateOnlyFirst varNames rest
            { value := true, isGenerated := true,
              replacements := uniteReplacements result.replacements temporal }
            (count + 1)
            (registerElements G outputStructure t.2.1.elements t.2.2)
      else
        generateLoop G formulaTemplate outputStructure generateOnlyFirst varNames rest
          result count (registerElements G outputStructure t.2.1.elements t.2.2)
    else
      generateLoop G formulaTemplate outputStructure generateOnlyFirst varNames rest
        result count s

/-- Variable-name universe of TemplateExpressionNode::generate (src lines
100 to 104): the union of the replacement key set and the template variable
names, as an insertion set. -/
def varUniverse (G : GenGateway σ) (formulaTemplate : ScAddr)
    (replacements : Replacements) : List String :=
  (getKeySet replacements ++ G.getVarNames formulaTemplate).eraseDups

/-- TemplateExpressionNode::generate, translated from src: convert the
replacements into per-row template params, build the variable-name universe
as the union of the replacement keys and the template variable names, fall
back to compute when the params vector is empty, otherwise run the row loop.
The Nat component is the count the source logs. -/
def generate (G : GenGateway σ) (formulaTemplate outputStructure : ScAddr)
    (generateOnlyFirst : Bool) (argumentVector : List ScAddr)
    (replacements : Replacements) (s : σ) :
    Except String (LogicFormulaResult × Nat × σ) :=
  let result : LogicFormulaResult := { isGenerated := false }
  let paramsVector := getReplacementsToScTemplateParams replacements
  if paramsVector.isEmpty then
    .ok (compute G formulaTemplate argumentVector result s, 0, s)
  else
    generateLoop G formulaTemplate outputStructure generateOnlyFirst
      (varUniverse G formulaTemplate replacements) paramsVector result 0 s

/-- Kind of a gateway call, used to log the externally observable store
traffic of the driver: a pattern search or a fact write. -/
inductive GwCall
  | search
  | write
deriving DecidableEq, Repr

/-- Gateway consumed by FormulasIterationStrategyTarget: the template
manager call that builds the target grounding candidates once per episode,
the target pattern search, and useFormula, the inherited strategy step that
runs a formula expression tree (its generate path) and reports the
LogicFormulaResult, the new store and the gateway calls it made.
createTemplateParams and useFormula are repository code absent from src and
are modelled from the spec as abstract capabilities; generateSolutionTree is
the strategy flag guarding solution tree recording. -/
structure DriverGateway (σ : Type) where
  createTemplateParams : σ → List ScTemplateParams
  searchTarget : ScTemplateParams → σ → Replacements
  useFormula : ScAddr → σ → LogicFormulaResult × σ × List GwCall
  generateSolutionTree : Bool

/-- FormulasIterationStrategyTarget::isTargetAchieved, translated from src:
any_of over the grounding candidates, searching the target pattern under
each until one search is non-empty. The second component logs one search
gateway call per performed search, in order. -/
def isTargetAchieved (G : DriverGateway σ) (pv : List ScTemplateParams)
    (s : σ) : Bool × List GwCall :=
  match pv with
  | [] => (false, [])
  | p :: rest =>
    if (G.searchTarget p s).isEmpty then
      let r := isTargetAchieved G rest s
      (r.1, GwCall.search :: r.2)
    else (true, [GwCall.search])

/-- Mutable episode state of applyIterationStrategy: the store, the
checkedFormulas list, and three observables of the run used by the claims:
the sequence of formulas passed to useFormula, the number of restart
transitions taken, the gateway call log, and the solution tree nodes
recorded. -/
structure DriverState (σ : Type) where
  store : σ
  checked : List ScAddr
  tried : List ScAddr
  restarts : Nat
  log : List GwCall
  solution : List (ScAddr × Replacements)
deriving DecidableEq, Repr

/-- Inner while loop of applyIterationStrategy (src lines 212 to 246),
translated statement by statement and made total with fuel: try the front
formula; when it generates, record a solution tree node when the flag is
set, re-test the target on the new store, and either break with achieved,
or restart by appending checkedFormulas to the queue (the
ContainersUtils::addToQueue call, modelled from the spec as an in-order
append), resetting the tier index to zero and clearing checkedFormulas;
when it does not generate, push it onto checkedFormulas; in either
non-break case pop the front and continue. Returns the achieved flag, the
tier index at exit and the final state; none on fuel exhaustion. -/
def driverWhile (G : DriverGateway σ) (pv : List ScTemplateParams) :
    Nat → List ScAddr → Nat → DriverState σ → Option (Bool × Nat × DriverState σ)
  | fuel, queue, index, st =>
    match queue with
    | [] => some (false, index, st)
    | f :: rest =>
      match fuel with
      | 0 => none
      | fuel + 1 =>
        let res := (G.useFormula f st.store).1
        let s1 := (G.useFormula f st.store).2.1
        let ev := (G.useFormula f st.store).2.2
        let st1 : DriverState σ :=
          { st with store := s1, log := st.log ++ ev, tried := st.tried ++ [f] }
        if res.isGenerated then
          let st2 :=
            { st1 with solution := st1.solution ++
                (if G.generateSolutionTree then [(f, res.replacements)] else []) }
          let st3 := { st2 with log := st2.log ++ (isTargetAchieved G pv s1).2 }
          if (isTargetAchieved G pv s1).1 then some (true, index, st3)
          else
            driverWhile G pv fuel (rest ++ st3.checked) 0
              { st3 with checked := [], restarts := st3.restarts + 1 }
        else
          driverWhile G pv fuel rest index { st1 with checked := st1.checked ++ [f] }

/-- Outer loop of applyIterationStrategy (src lines 206 to 247), translated
from the source for statement and made total with fuel: while the tier
index is in range and the target is not achieved, run the while loop on the
tier queue at the index and continue from the returned index plus one. -/
def driverFor (G : DriverGateway σ) (pv : List ScTemplateParams) :
    Nat → List (List ScAddr) → Nat → Bool → DriverState σ → Option (Bool × DriverState σ)
  | 0, _, _, _, _ => none
  | fuel + 1, tiers, index, achieved, st =>
    if index < tiers.length ∧ achieved = false then
      match driverWhile G pv fuel (tiers.getD index []) index st with
      | none => none
      | some (ach2, index2, st2) => driverFor G pv fuel tiers (index2 + 1) ach2 st2
    else some (achieved, st)

/-- FormulasIterationStrategyTarget::applyIterationStrategy, translated from
src: build the target grounding candidates once, test the target and return
false immediately when it is already achieved, then raise the fatal item-not
-found error when the priority queue list is empty (the
createFormulasQueuesListByPriority call is repository code absent from src;
its result is the tiers argument, modelled from the spec as the
priority-ordered tier list), and otherwise run the scanning loops and return
the achieved flag. The error channel carries the source exception message;
none means the fuel ran out. -/
def applyIterationStrategy (G : DriverGateway σ) (fuel : Nat)
    (tiers : List (List ScAddr)) (s : σ) :
    Option (Except String Bool × DriverState σ) :=
  let pv := G.createTemplateParams s
  let st0 : DriverState σ :=
    { store := s, checked := [], tried := [], restarts := 0,
      log := (isTargetAchieved G pv s).2, solution := [] }
  if (isTargetAchieved G pv s).1 then some (.ok false, st0)
  else if tiers.isEmpty then some (.error "No rule sets found.", st0)
  else
    match driverFor G pv fuel tiers 0 false st0 with
    | none => none
    | some (ach, st) => some (.ok ach, st)

/-- Concrete gateway whose searches always come back empty; used to exhibit
behaviour of check on a pattern with zero matches. -/
def GEmpty : GenGateway Nat where
  searchTemplate := fun _ _ _ => []
  searchTemplateBatch := fun _ _ _ => []
  getVarNames := fun _ => []
  createTemplateParams := fun _ _ => []
  genTemplate := fun _ _ s => (true, { bindings := [], elements := [] }, s)
  addToSet := fun _ _ s => s

/-- Concrete gateway whose searches always find one row; used to exhibit a
candidate row that already holds before generation. -/
def GFound : GenGateway Nat where
  searchTemplate := fun _ _ _ => [("x", [1])]
  searchTemplateBatch := fun _ _ _ => []
  getVarNames := fun _ => []
  createTemplateParams := fun _ _ => []
  genTemplate := fun _ _ s => (true, { bindings := [], elements := [] }, s)
  addToSet := fun _ _ s => s

/-- Concrete gateway over a Nat store counting commits: the search finds a
row exactly when at least one commit happened, and each commit increments
the store and binds x to 2; used to exhibit the dedup behaviour of two
successive generate calls. -/
def GGen : GenGateway Nat where
  searchTemplate := fun _ _ s => if s = 0 then [] else [("x", [1])]
  searchTemplateBatch := fun _ _ _ => []
  getVarNames := fun _ => []
  createTemplateParams := fun _ _ => []
  genTemplate := fun _ _ s => (true, { bindings := [("x", 2)], elements := [10] }, s + 1)
  addToSet := fun _ _ s => s

/-- Concrete gateway whose template has the variable names y and z while the
generation result binds only y and the candidate row binds only x; used to
exhibit the unresolvable-name fatal error of generate. -/
def GMiss : GenGateway Nat where
  searchTemplate := fun _ _ _ => []
  searchTemplateBatch := fun _ _ _ => []
  getVarNames := fun _ => ["y", "z"]
  createTemplateParams := fun _ _ => []
  genTemplate := fun _ _ s => (true, { bindings := [("y", 42)], elements := [] }, s)
  addToSet := fun _ _ s => s

/-- Concrete gateway whose unconstrained search finds one row; used to
exhibit the compute fallback of generate on an empty row sequence. -/
def GPlain : GenGateway Nat where
  searchTemplate := fun _ _ _ => [("x", [1])]
  searchTemplateBatch := fun _ _ _ => []
  getVarNames := fun _ => []
  createTemplateParams := fun _ _ => []
  genTemplate := fun _ _ s => (true, { bindings := [], elements := [] }, s)
  addToSet := fun _ _ s => s

/-- Concrete gateway whose commit always fails while still reporting two
created elements, with an addToSet that records every registration in the
Nat store; used to exhibit the registration-after-failed-commit behaviour. -/
def GFailCommit : GenGateway Nat where
  searchTemplate := fun _ _ _ => []
  searchTemplateBatch := fun _ _ _ => []
  getVarNames := fun _ => []
  createTemplateParams := fun _ _ => []
  genTemplate := fun _ _ s => (false, { bindings := [], elements := [7, 8] }, s)
  addToSet := fun _ e s => s * 100 + e

/-- Concrete driver gateway whose target search always succeeds: the target
is already achieved on entry and no formula ever fires. -/
def DAch : DriverGateway Nat where
  createTemplateParams := fun _ => [[]]
  searchTarget := fun _ _ => [("t", [1])]
  useFormula := fun _ s => ({ value := false, isGenerated := false, replacements := [] }, s, [])
  generateSolutionTree := false

/-- Concrete driver gateway whose target search never succeeds and whose
formulas never generate. -/
def DFail : DriverGateway Nat where
  createTemplateParams := fun _ => [[]]
  searchTarget := fun _ _ => []
  useFormula := fun f s => ({ value := false, isGenerated := false, replacements := [] }, s + f, [GwCall.search])
  generateSolutionTree := false

/-- Concrete driver gateway whose formulas always generate while the target
search never succeeds; used to exhibit the restart transition. -/
def DFire : DriverGateway Nat where
  createTemplateParams := fun _ => [[]]
  searchTarget := fun _ _ => []
  useFormula := fun _ s => ({ value := true, isGenerated := true, replacements := [] }, s, [GwCall.write])
  generateSolutionTree := false

/-- Concrete driver state with one previously rejected formula on the
checked list; used to exhibit the restart transition. -/
def stFire : DriverState Nat :=
  { store := 0, checked := [3], tried := [], restarts := 0, log := [], solution := [] }

variable {σ : Type}

theorem compute_isGenerated (G : GenGateway σ) (ft : ScAddr) (av : List ScAddr)
    (r : LogicFormulaResult) (s : σ) :
    (compute G ft av r s).isGenerated = r.isGenerated := rfl

theorem uniteReplacements_nil (b : Replacements) : uniteReplacements [] b = b := by
  simp [uniteReplacements, rowCount]

/-- Claim C1: the source of check returns the literal constant true as the
value field of its result, regardless of the search outcome: on a gateway
whose search for the pattern under the assignment yields zero rows, check
still reports value true, contradicting the claimed equivalence with
rowCount of the search being positive. -/
theorem check_value_true_on_empty_search :
    check GEmpty 5 [] 0
      = { value := true, hasSearchResult := true, replacements := [],
          formulaTemplate := 5 }
    ∧ GEmpty.searchTemplate 5 [] 0 = [] := ⟨rfl, rfl⟩

/-- Invariant of the generate row loop: the value and isGenerated flags stay
equal, the success count never decreases, and isGenerated holds on exit
exactly when it held on entry or the count grew, that is when some row
committed a new fact. -/
theorem generateLoop_value (G : GenGateway σ) (ft out : ScAddr) (gof : Bool)
    (vn : List String) (rows : List ScTemplateParams) :
    ∀ (result : LogicFormulaResult) (count : Nat) (s : σ)
      (res : LogicFormulaResult) (cnt : Nat) (sF : σ),
      generateLoop G ft out gof vn rows result count s = Except.ok (res, cnt, sF) →
      result.value = result.isGenerated →
      res.value = res.isGenerated ∧ count ≤ cnt ∧
        (res.isGenerated = true ↔ (result.isGenerated = true ∨ count < cnt)) := by
  induction rows with
  | nil =>
    intro result count s res cnt sF hok hv
    simp only [generateLoop, Except.ok.injEq, Prod.mk.injEq] at hok
    obtain ⟨h1, h2, _⟩ := hok
    subst h1; subst h2
    exact ⟨hv, Nat.le_refl _, by simp⟩
  | cons p rest ih =>
    intro result count s res cnt sF hok hv
    simp only [generateLoop] at hok
    by_cases hbrk : (gof && result.isGenerated) = true
    · rw [if_pos hbrk] at hok
      simp only [Except.ok.injEq, Prod.mk.injEq] at hok
      obtain ⟨h1, h2, _⟩ := hok
      subst h1; subst h2
      exact ⟨hv, Nat.le_refl _, by simp⟩
    · rw [if_neg hbrk] at hok
      by_cases hse : (G.searchTemplate ft p s).isEmpty = true
      · rw [if_pos hse] at hok
        by_cases hg : (G.genTemplate ft p s).1 = true
        · rw [if_pos hg] at hok
          cases hbt : buildTemporal vn (G.genTemplate ft p s).2.1 p with
          | error e =>
            rw [hbt] at hok
            exact absurd hok (by simp)
          | ok temporal =>
            rw [hbt] at hok
            obtain ⟨h1, h2, h3⟩ := ih _ _ _ _ _ _ hok rfl
            refine ⟨h1, Nat.le_of_succ_le h2, ?_⟩
            have hg2 : res.isGenerated = true := h3.mpr (Or.inl rfl)
            constructor
            · intro _
              exact Or.inr (Nat.lt_of_succ_le h2)
            · intro _
              exact hg2
        · rw [if_neg hg] at hok
          exact ih _ _ _ _ _ _ hok hv
      · rw [if_neg hse] at hok
        exact ih _ _ _ _ _ _ hok hv

/-- Claim C3 counterexample: a candidate row that already holds (its
pre-write search is non-empty) is skipped by generate and the returned value
field stays false, while the claim demands value true for a row that
already held. -/
theorem generate_already_held_value_false :
    generate GFound 5 9 false [] [("x", [1])] 0
      = Except.ok ({ value := false, isGenerated := false, replacements := [] }, 0, 0)
    ∧ (GFound.searchTemplate 5 [("x", 1)] 0).isEmpty = false := ⟨rfl, rfl⟩

/-- Claim C3 as amended: for a non-empty row sequence, generate reports
value true exactly when at least one candidate row produced a new fact,
that is when the commit count of the run is positive; rows that already
held are skipped and leave value untouched. -/
theorem generate_value_iff_commit (G : GenGateway σ) (ft out : ScAddr) (gof : Bool)
    (av : List ScAddr) (R : Replacements) (s : σ)
    (res : LogicFormulaResult) (cnt : Nat) (sF : σ)
    (hne : getReplacementsToScTemplateParams R ≠ [])
    (hok : generate G ft out gof av R s = Except.ok (res, cnt, sF)) :
    res.value = true ↔ 0 < cnt := by
  have hemp : (getReplacementsToScTemplateParams R).isEmpty = false := by
    cases h : getReplacementsToScTemplateParams R with
    | nil => exact absurd h hne
    | cons a l => rfl
  simp only [generate, hemp, Bool.false_eq_true, if_false] at hok
  obtain ⟨h1, _, h3⟩ := generateLoop_value G ft out gof _ _ _ _ _ _ _ _ hok rfl
  rw [h1, h3]
  simp

/-- Witness for the amended claim C3 at a concrete gateway where the single
candidate row commits one new fact. -/
theorem generate_value_iff_commit_witness :
    (getReplacementsToScTemplateParams [("x", [1])] ≠ []) ∧
    (({ value := true, isGenerated := true, replacements := [("x", [2])] }
        : LogicFormulaResult).value = true ↔ 0 < 1) := by
  constructor
  · decide
  · exact generate_value_iff_commit GGen 5 9 false [] [("x", [1])] 0
      { value := true, isGenerated := true, replacements := [("x", [2])] } 1 1
      (by decide) (by rfl)

/-- Claim C8: when the candidate rows convert to an empty sequence of
per-row assignments, generate performs no write, leaves the store unchanged
and returns the compute result, whose isGenerated field is false. -/
theorem generate_empty_rows (G : GenGateway σ) (ft out : ScAddr) (gof : Bool)
    (av : List ScAddr) (R : Replacements) (s : σ)
    (h : getReplacementsToScTemplateParams R = []) :
    generate G ft out gof av R s
      = Except.ok
          (compute G ft av { value := false, isGenerated := false, replacements := [] } s,
           0, s)
    ∧ (compute G ft av { value := false, isGenerated := false, replacements := [] } s).isGenerated
        = false := by
  constructor
  · unfold generate
    rw [h]
    rfl
  · rfl

/-- Witness for claim C8 at a concrete gateway: a table whose column is
empty converts to zero rows, and generate returns the pure search result of
compute with isGenerated false over the unchanged store. -/
theorem generate_empty_rows_witness :
    (getReplacementsToScTemplateParams [("x", ([] : List ScAddr))] = []) ∧
    (generate GPlain 5 9 false [] [("x", [])] 0
      = Except.ok
          (compute GPlain 5 [] { value := false, isGenerated := false, replacements := [] } 0,
           0, 0)
    ∧ (compute GPlain 5 [] { value := false, isGenerated := false, replacements := [] } 0).isGenerated
        = false) :=
  ⟨rfl, generate_empty_rows GPlain 5 9 false [] [("x", [])] 0 rfl⟩

/-- Claim C10: for a candidate row whose pre-write search is empty and whose
commit fails, generate still registers every element of the generation
result into the output structure, raises no error for that row, leaves
value, isGenerated and the accumulated replacements unchanged, and
continues the iteration with the remaining rows. -/
theorem generate_failed_commit (G : GenGateway σ) (ft out : ScAddr) (gof : Bool)
    (av : List ScAddr) (R : Replacements) (s : σ)
    (p : ScTemplateParams) (rest : List ScTemplateParams)
    (gr : ScTemplateGenResult) (s1 : σ)
    (hrows : getReplacementsToScTemplateParams R = p :: rest)
    (hpre : (G.searchTemplate ft p s).isEmpty = true)
    (hgen : G.genTemplate ft p s = (false, gr, s1)) :
    generate G ft out gof av R s
      = generateLoop G ft out gof (varUniverse G ft R) rest
          { value := false, isGenerated := false, replacements := [] } 0
          (registerElements G out gr.elements s1) := by
  unfold generate
  rw [hrows]
  simp only [List.isEmpty_cons, Bool.false_eq_true, if_false, generateLoop]
  rw [if_neg (by simp), if_pos hpre, hgen]
  rfl

/-- Witness for claim C10 at a concrete gateway: the failed commit of the
only candidate row still folds both created elements into the output store
through addToSet, and the loop finishes with the untouched accumulator. -/
theorem generate_failed_commit_witness :
    (getReplacementsToScTemplateParams [("x", [1])] = [[("x", 1)]]) ∧
    ((GFailCommit.searchTemplate 5 [("x", 1)] 1).isEmpty = true) ∧
    (GFailCommit.genTemplate 5 [("x", 1)] 1 = (false, { bindings := [], elements := [7, 8] }, 1)) ∧
    (generate GFailCommit 5 9 false [] [("x", [1])] 1
      = generateLoop GFailCommit 5 9 false (varUniverse GFailCommit 5 [("x", [1])]) []
          { value := false, isGenerated := false, replacements := [] } 0
          (registerElements GFailCommit 9 [7, 8] 1)) :=
  ⟨rfl, rfl, rfl,
    generate_failed_commit GFailCommit 5 9 false [] [("x", [1])] 1 [("x", 1)] []
      { bindings := [], elements := [7, 8] } 1 rfl rfl rfl⟩

/-- Claim C5: with a single candidate row whose pre-write search is empty,
whose commit succeeds and whose fact is found by the search afterwards, the
first generate call commits exactly one write, and the second generate call
on the resulting store finds the fact in the pre-write search, skips the
row, reports isGenerated false and leaves the store unchanged. -/
theorem generate_dedup (G : GenGateway σ) (ft out : ScAddr) (gof : Bool)
    (av : List ScAddr) (R : Replacements) (p : ScTemplateParams)
    (gr : ScTemplateGenResult) (t : Replacements) (s0 s1 : σ)
    (hrows : getReplacementsToScTemplateParams R = [p])
    (hpre : (G.searchTemplate ft p s0).isEmpty = true)
    (hgen : G.genTemplate ft p s0 = (true, gr, s1))
    (htmp : buildTemporal (varUniverse G ft R) gr p = Except.ok t)
    (hper : (G.searchTemplate ft p (registerElements G out gr.elements s1)).isEmpty = false) :
    generate G ft out gof av R s0
      = Except.ok ({ value := true, isGenerated := true, replacements := t }, 1,
          registerElements G out gr.elements s1)
    ∧ generate G ft out gof av R (registerElements G out gr.elements s1)
      = Except.ok ({ value := false, isGenerated := false, replacements := [] }, 0,
          registerElements G out gr.elements s1) := by
  constructor
  · simp only [generate, hrows, List.isEmpty_cons, Bool.false_eq_true, if_false, generateLoop]
    rw [if_neg (by simp), if_pos hpre, hgen]
    simp only [htmp]
    rw [uniteReplacements_nil]
    simp
  · simp only [generate, hrows, List.isEmpty_cons, Bool.false_eq_true, if_false, generateLoop]
    rw [if_neg (by simp), if_neg (by simp [hper])]

/-- Witness for claim C5 at a concrete gateway over a commit-counting store:
the first call writes once and binds x to 2, the second call skips the row
and reports isGenerated false on the unchanged store. -/
theorem generate_dedup_witness :
    (getReplacementsToScTemplateParams [("x", [1])] = [[("x", 1)]]) ∧
    ((GGen.searchTemplate 5 [("x", 1)] 0).isEmpty = true) ∧
    ((GGen.searchTemplate 5 [("x", 1)] (registerElements GGen 9 [10] 1)).isEmpty = false) ∧
    (generate GGen 5 9 false [] [("x", [1])] 0
      = Except.ok ({ value := true, isGenerated := true, replacements := [("x", [2])] }, 1,
          registerElements GGen 9 [10] 1)
    ∧ generate GGen 5 9 false [] [("x", [1])] (registerElements GGen 9 [10] 1)
      = Except.ok ({ value := false, isGenerated := false, replacements := [] }, 0,
          registerElements GGen 9 [10] 1)) :=
  ⟨rfl, rfl, rfl,
    generate_dedup GGen 5 9 false [] [("x", [1])] [("x", 1)]
      { bindings := [("x", 2)], elements := [10] } [("x", [2])] 0 1
      rfl rfl rfl rfl rfl⟩

/-- Lookup facts about the temporal-replacements loop: when it succeeds,
every name of the universe is bound to the generation-result value when that
source has the name, and to the input-assignment value otherwise. -/
theorem buildTemporal_lookup (gr : ScTemplateGenResult) (p : ScTemplateParams) :
    ∀ (names : List String) (t : Replacements),
      buildTemporal names gr p = Except.ok t →
      ∀ n ∈ names,
        (∀ a, lookupName n gr.bindings = some a → lookupName n t = some [a]) ∧
        (lookupName n gr.bindings = none →
          ∀ a, lookupName n p = some a → lookupName n t = some [a]) := by
  intro names
  induction names with
  | nil => intro t _ n hn; exact absurd hn (List.not_mem_nil n)
  | cons m rest ih =>
    intro t hok n hn
    simp only [buildTemporal] at hok
    cases hbm : lookupName m gr.bindings with
    | some a0 =>
      rw [hbm] at hok
      cases hrest : buildTemporal rest gr p with
      | error e => rw [hrest] at hok; exact absurd hok (by simp [Except.map])
      | ok t0 =>
        rw [hrest] at hok
        simp only [Except.map, Except.ok.injEq] at hok
        subst hok
        rw [List.mem_cons] at hn
        by_cases hnm : m = n
        · subst hnm
          constructor
          · intro a ha
            rw [hbm] at ha
            cases ha
            simp [lookupName]
          · intro hnone
            rw [hbm] at hnone
            cases hnone
        · have hn2 : n ∈ rest := by
            rcases hn with h1 | h2
            · exact absurd h1.symm hnm
            · exact h2
          have := ih t0 hrest n hn2
          constructor
          · intro a ha
            have h2 := this.1 a ha
            simpa [lookupName, hnm] using h2
          · intro hnone a ha
            have h2 := this.2 hnone a ha
            simpa [lookupName, hnm] using h2
    | none =>
      rw [hbm] at hok
      cases hpm : lookupName m p with
      | some a0 =>
        rw [hpm] at hok
        cases hrest : buildTemporal rest gr p with
        | error e => rw [hrest] at hok; exact absurd hok (by simp [Except.map])
        | ok t0 =>
          rw [hrest] at hok
          simp only [Except.map, Except.ok.injEq] at hok
          subst hok
          rw [List.mem_cons] at hn
          by_cases hnm : m = n
          · subst hnm
            constructor
            · intro a ha
              rw [hbm] at ha
              cases ha
            · intro _ a ha
              rw [hpm] at ha
              cases ha
              simp [lookupName]
          · have hn2 : n ∈ rest := by
              rcases hn with h1 | h2
              · exact absurd h1.symm hnm
              · exact h2
            have := ih t0 hrest n hn2
            constructor
            · intro a ha
              have h2 := this.1 a ha
              simpa [lookupName, hnm] using h2
            · intro hnone a ha
              have h2 := this.2 hnone a ha
              simpa [lookupName, hnm] using h2
      | none =>
        rw [hpm] at hok
        exact absurd hok (by simp)

/-- Error fact about the temporal-replacements loop: a universe name that
neither the generation result nor the input assignment binds makes the loop
throw. -/
theorem buildTemporal_missing (gr : ScTemplateGenResult) (p : ScTemplateParams) :
    ∀ (names : List String) (n : String), n ∈ names →
      lookupName n gr.bindings = none → lookupName n p = none →
      ∃ e, buildTemporal names gr p = Except.error e := by
  intro names
  induction names with
  | nil => intro n hn; exact absurd hn (List.not_mem_nil n)
  | cons m rest ih =>
    intro n hn hb hp
    rw [List.mem_cons] at hn
    by_cases hnm : n = m
    · subst hnm
      exact ⟨"generation result and template params do not have replacement for " ++ n,
        by simp only [buildTemporal, hb, hp]⟩
    · have hn2 : n ∈ rest := by
        rcases hn with h1 | h2
        · exact absurd h1 hnm
        · exact h2
      obtain ⟨e, he⟩ := ih n hn2 hb hp
      cases hbm : lookupName m gr.bindings with
      | some a0 => exact ⟨e, by simp only [buildTemporal, hbm, he, Except.map]⟩
      | none =>
        cases hpm : lookupName m p with
        | some a0 => exact ⟨e, by simp only [buildTemporal, hbm, hpm, he, Except.map]⟩
        | none =>
          exact ⟨"generation result and template params do not have replacement for " ++ m,
            by simp only [buildTemporal, hbm, hpm]⟩

/-- Claim C7: after a successful write for the first candidate row, the
temporal replacements resolve every universe name from the generation
result bindings first and the row assignment second, and a name with
neither source makes generate fail with the invalid-state error, which
propagates to the caller of generate. -/
theorem generate_resolution_priority (G : GenGateway σ) (ft out : ScAddr) (gof : Bool)
    (av : List ScAddr) (R : Replacements) (s : σ)
    (p : ScTemplateParams) (rest : List ScTemplateParams)
    (gr : ScTemplateGenResult) (s1 : σ)
    (hrows : getReplacementsToScTemplateParams R = p :: rest)
    (hpre : (G.searchTemplate ft p s).isEmpty = true)
    (hgen : G.genTemplate ft p s = (true, gr, s1)) :
    (∀ t, buildTemporal (varUniverse G ft R) gr p = Except.ok t →
      ∀ n ∈ varUniverse G ft R,
        (∀ a, lookupName n gr.bindings = some a → lookupName n t = some [a]) ∧
        (lookupName n gr.bindings = none →
          ∀ a, lookupName n p = some a → lookupName n t = some [a]))
    ∧ (∀ n ∈ varUniverse G ft R,
        lookupName n gr.bindings = none → lookupName n p = none →
        ∃ e, buildTemporal (varUniverse G ft R) gr p = Except.error e
          ∧ generate G ft out gof av R s = Except.error e) := by
  constructor
  · intro t hok
    exact buildTemporal_lookup gr p _ t hok
  · intro n hn hb hp
    obtain ⟨e, he⟩ := buildTemporal_missing gr p _ n hn hb hp
    refine ⟨e, he, ?_⟩
    simp only [generate, hrows, List.isEmpty_cons, Bool.false_eq_true, if_false, generateLoop]
    rw [if_neg (by simp), if_pos hpre, hgen]
    simp [he]

/-- Witness for claim C7 at a concrete gateway: the universe is x, y, z, the
generation result binds y, the row binds x, and z has neither source, so
generate fails with the invalid-state error naming z. -/
theorem generate_resolution_priority_witness :
    (getReplacementsToScTemplateParams [("x", [1])] = [[("x", 1)]]) ∧
    ((GMiss.searchTemplate 5 [("x", 1)] 0).isEmpty = true) ∧
    (GMiss.genTemplate 5 [("x", 1)] 0 = (true, { bindings := [("y", 42)], elements := [] }, 0)) ∧
    ((∀ t, buildTemporal (varUniverse GMiss 5 [("x", [1])]) { bindings := [("y", 42)], elements := [] } [("x", 1)] = Except.ok t →
      ∀ n ∈ varUniverse GMiss 5 [("x", [1])],
        (∀ a, lookupName n ({ bindings := [("y", 42)], elements := [] } : ScTemplateGenResult).bindings = some a → lookupName n t = some [a]) ∧
        (lookupName n ({ bindings := [("y", 42)], elements := [] } : ScTemplateGenResult).bindings = none →
          ∀ a, lookupName n [("x", 1)] = some a → lookupName n t = some [a]))
    ∧ (∀ n ∈ varUniverse GMiss 5 [("x", [1])],
        lookupName n ({ bindings := [("y", 42)], elements := [] } : ScTemplateGenResult).bindings = none → lookupName n [("x", 1)] = none →
        ∃ e, buildTemporal (varUniverse GMiss 5 [("x", [1])]) { bindings := [("y", 42)], elements := [] } [("x", 1)] = Except.error e
          ∧ generate GMiss 5 9 false [] [("x", [1])] 0 = Except.error e)) :=
  ⟨rfl, rfl, rfl,
    generate_resolution_priority GMiss 5 9 false [] [("x", [1])] 0 [("x", 1)] []
      { bindings := [("y", 42)], elements := [] } 0 rfl rfl rfl⟩

/-- Gateway-call log of the target test: every call it performs is a
search; the target test never writes. -/
theorem isTargetAchieved_log (G : DriverGateway σ) :
    ∀ (pv : List ScTemplateParams) (s : σ) (c : GwCall),
      c ∈ (isTargetAchieved G pv s).2 → c = GwCall.search := by
  intro pv
  induction pv with
  | nil =>
    intro s c hc
    simp [isTargetAchieved] at hc
  | cons p rest ih =>
    intro s c hc
    simp only [isTargetAchieved] at hc
    split at hc
    · simp only [List.mem_cons] at hc
      rcases hc with h | h
      · exact h
      · exact ih s c h
    · simp only [List.mem_cons, List.not_mem_nil, or_false] at hc
      exact hc

/-- Claim C6: when the target is already achieved before any rule fires,
applyIterationStrategy returns false immediately, the store is unchanged, no
formula is tried, no restart happens, and every gateway call of the run is a
search, so zero writes are committed. -/
theorem applyIterationStrategy_preachieved (G : DriverGateway σ) (fuel : Nat)
    (tiers : List (List ScAddr)) (s : σ)
    (h0 : (isTargetAchieved G (G.createTemplateParams s) s).1 = true) :
    applyIterationStrategy G fuel tiers s
      = some (Except.ok false,
          { store := s, checked := [], tried := [], restarts := 0,
            log := (isTargetAchieved G (G.createTemplateParams s) s).2, solution := [] })
    ∧ ∀ c ∈ (isTargetAchieved G (G.createTemplateParams s) s).2, c = GwCall.search := by
  constructor
  · simp only [applyIterationStrategy, h0, if_true]
  · intro c hc
    exact isTargetAchieved_log G _ s c hc

/-- Witness for claim C6 at a concrete gateway whose target search succeeds
on entry. -/
theorem applyIterationStrategy_preachieved_witness :
    ((isTargetAchieved DAch (DAch.createTemplateParams 0) 0).1 = true) ∧
    (applyIterationStrategy DAch 3 [[1]] 0
      = some (Except.ok false,
          { store := 0, checked := [], tried := [], restarts := 0,
            log := (isTargetAchieved DAch (DAch.createTemplateParams 0) 0).2, solution := [] })
    ∧ ∀ c ∈ (isTargetAchieved DAch (DAch.createTemplateParams 0) 0).2, c = GwCall.search) :=
  ⟨rfl, applyIterationStrategy_preachieved DAch 3 [[1]] 0 rfl⟩

/-- Claim C2 counterexample: with zero rule tiers, the episode does not
always abort, and when it does abort the abort is not before every gateway
call. On a gateway whose target is already achieved, applyIterationStrategy
with zero tiers returns ok false, no error; on a gateway whose target is not
achieved, the error is raised only after the target-achievement search
already ran, as the search entry in the gateway log shows. -/
theorem applyIterationStrategy_no_tiers_counterexample :
    applyIterationStrategy DAch 5 [] 0
      = some (Except.ok false,
          { store := 0, checked := [], tried := [], restarts := 0,
            log := [GwCall.search], solution := [] })
    ∧ applyIterationStrategy DFail 5 [] 0
      = some (Except.error "No rule sets found.",
          { store := 0, checked := [], tried := [], restarts := 0,
            log := [GwCall.search], solution := [] }) := ⟨rfl, rfl⟩

/-- Claim C2 as amended: when the target is not already achieved, a
zero-tier rule set makes applyIterationStrategy raise the fatal error that
surfaces to the caller, after the initial target-achievement searches but
before any formula is tried and before any write: the store is unchanged and
the tried list is empty. -/
theorem applyIterationStrategy_no_tiers (G : DriverGateway σ) (fuel : Nat) (s : σ)
    (h0 : (isTargetAchieved G (G.createTemplateParams s) s).1 = false) :
    applyIterationStrategy G fuel [] s
      = some (Except.error "No rule sets found.",
          { store := s, checked := [], tried := [], restarts := 0,
            log := (isTargetAchieved G (G.createTemplateParams s) s).2, solution := [] }) := by
  simp only [applyIterationStrategy, h0, Bool.false_eq_true, if_false, List.isEmpty_nil,
    if_true]

/-- Witness for the amended claim C2 at a concrete gateway whose target
search fails on entry. -/
theorem applyIterationStrategy_no_tiers_witness :
    ((isTargetAchieved DFail (DFail.createTemplateParams 0) 0).1 = false) ∧
    (applyIterationStrategy DFail 7 [] 0
      = some (Except.error "No rule sets found.",
          { store := 0, checked := [], tried := [], restarts := 0,
            log := (isTargetAchieved DFail (DFail.createTemplateParams 0) 0).2,
            solution := [] })) :=
  ⟨rfl, applyIterationStrategy_no_tiers DFail 7 0 rfl⟩

/-- Drain lemma for the inner while loop when no formula ever generates:
with enough fuel the loop returns not achieved at the entry tier index,
every queue formula is tried once in order, every queue formula moves onto
the checked list, and no restart is taken. -/
theorem driverWhile_all_fail (G : DriverGateway σ) (pv : List ScTemplateParams)
    (hfail : ∀ f st, ((G.useFormula f st).1).isGenerated = false) :
    ∀ (fuel : Nat) (queue : List ScAddr) (index : Nat) (st : DriverState σ),
      queue.length < fuel →
      ∃ s2 lg, driverWhile G pv fuel queue index st
        = some (false, index,
            { store := s2, checked := st.checked ++ queue, tried := st.tried ++ queue,
              restarts := st.restarts, log := st.log ++ lg,
              solution := st.solution }) := by
  intro fuel
  induction fuel with
  | zero =>
    intro queue index st h
    exact absurd h (Nat.not_lt_zero _)
  | succ fuel ih =>
    intro queue index st h
    cases queue with
    | nil => exact ⟨st.store, [], by simp [driverWhile]⟩
    | cons f rest =>
      have hstep : driverWhile G pv (fuel + 1) (f :: rest) index st
          = driverWhile G pv fuel rest index
              { store := (G.useFormula f st.store).2.1,
                checked := st.checked ++ [f],
                tried := st.tried ++ [f],
                restarts := st.restarts,
                log := st.log ++ (G.useFormula f st.store).2.2,
                solution := st.solution } := by
        simp only [driverWhile, hfail, Bool.false_eq_true, if_false]
      obtain ⟨s2, lg, hrec⟩ := ih rest index
        { store := (G.useFormula f st.store).2.1,
          checked := st.checked ++ [f],
          tried := st.tried ++ [f],
          restarts := st.restarts,
          log := st.log ++ (G.useFormula f st.store).2.2,
          solution := st.solution }
        (by simp only [List.length_cons] at h; omega)
      refine ⟨s2, (G.useFormula f st.store).2.2 ++ lg, ?_⟩
      rw [hstep, hrec]
      simp [List.append_assoc]

/-- Drain lemma for the outer tier loop when no formula ever generates: with
enough fuel the run returns not achieved, trying and checking exactly the
formulas of the remaining tiers in order, with zero restarts. -/
theorem driverFor_all_fail (G : DriverGateway σ) (pv : List ScTemplateParams)
    (hfail : ∀ f st, ((G.useFormula f st).1).isGenerated = false) :
    ∀ (fuel : Nat) (tiers : List (List ScAddr)) (index : Nat) (st : DriverState σ),
      (tiers.drop index).flatten.length + (tiers.length - index) < fuel →
      ∃ s2 lg, driverFor G pv fuel tiers index false st
        = some (false,
            { store := s2,
              checked := st.checked ++ (tiers.drop index).flatten,
              tried := st.tried ++ (tiers.drop index).flatten,
              restarts := st.restarts, log := st.log ++ lg,
              solution := st.solution }) := by
  intro fuel
  induction fuel with
  | zero =>
    intro tiers index st h
    exact absurd h (Nat.not_lt_zero _)
  | succ fuel ih =>
    intro tiers index st h
    by_cases hidx : index < tiers.length
    · have hdrop : tiers.drop index = tiers.getD index [] :: tiers.drop (index + 1) := by
        rw [List.getD_eq_getElem tiers [] hidx]
        exact List.drop_eq_getElem_cons hidx
      rw [hdrop] at h
      simp only [List.flatten_cons, List.length_append] at h
      obtain ⟨s2, lg, hw⟩ := driverWhile_all_fail G pv hfail fuel (tiers.getD index [])
        index st (by omega)
      have hstep : driverFor G pv (fuel + 1) tiers index false st
          = driverFor G pv fuel tiers (index + 1) false
              { store := s2, checked := st.checked ++ tiers.getD index [],
                tried := st.tried ++ tiers.getD index [], restarts := st.restarts,
                log := st.log ++ lg, solution := st.solution } := by
        simp only [driverFor]
        rw [if_pos ⟨hidx, trivial⟩, hw]
      obtain ⟨s3, lg2, hf⟩ := ih tiers (index + 1)
        { store := s2, checked := st.checked ++ tiers.getD index [],
          tried := st.tried ++ tiers.getD index [], restarts := st.restarts,
          log := st.log ++ lg, solution := st.solution }
        (by omega)
      refine ⟨s3, lg ++ lg2, ?_⟩
      rw [hstep, hf, hdrop]
      simp [List.append_assoc]
    · have hdrop : tiers.drop index = [] :=
        List.drop_eq_nil_of_le (Nat.le_of_not_lt hidx)
      refine ⟨st.store, [], ?_⟩
      simp only [driverFor]
      rw [if_neg (fun hh => hidx hh.1), hdrop]
      simp

/-- Claim C9 counterexample: on a gateway whose target is already achieved,
applyIterationStrategy over the non-empty tier list containing formula 7
returns false with an empty tried list: the only formula is tried zero
times, not exactly once as the claim states. -/
theorem applyIterationStrategy_exhaustion_counterexample :
    applyIterationStrategy DAch 5 [[7]] 0
      = some (Except.ok false,
          { store := 0, checked := [], tried := [], restarts := 0,
            log := [GwCall.search], solution := [] })
    ∧ ([] : List ScAddr) ≠ [7] := ⟨rfl, by decide⟩

/-- Claim C9 as amended: when the target is not achieved on entry and no
formula ever generates, applyIterationStrategy terminates with enough fuel
and returns false after draining every tier exactly once: the tried
sequence is exactly the concatenation of the tiers in order, with zero
restarts. -/
theorem applyIterationStrategy_exhaustion (G : DriverGateway σ)
    (tiers : List (List ScAddr)) (s : σ) (fuel : Nat)
    (h0 : (isTargetAchieved G (G.createTemplateParams s) s).1 = false)
    (hne : tiers ≠ [])
    (hfail : ∀ f st, ((G.useFormula f st).1).isGenerated = false)
    (hfuel : tiers.flatten.length + tiers.length < fuel) :
    ∃ s2 lg, applyIterationStrategy G fuel tiers s
      = some (Except.ok false,
          { store := s2, checked := tiers.flatten, tried := tiers.flatten,
            restarts := 0,
            log := (isTargetAchieved G (G.createTemplateParams s) s).2 ++ lg,
            solution := [] }) := by
  have hemp : tiers.isEmpty = false := by
    cases tiers with
    | nil => exact absurd rfl hne
    | cons a l => rfl
  obtain ⟨s2, lg, hf⟩ := driverFor_all_fail G (G.createTemplateParams s) hfail fuel tiers 0
    { store := s, checked := [], tried := [], restarts := 0,
      log := (isTargetAchieved G (G.createTemplateParams s) s).2, solution := [] }
    (by simpa using hfuel)
  refine ⟨s2, lg, ?_⟩
  simp only [applyIterationStrategy, h0, Bool.false_eq_true, if_false, hemp]
  rw [hf]
  simp

/-- Witness for the amended claim C9 at a concrete gateway where no formula
fires: both tiers drain once, the tried sequence is 1, 2, 3 and zero
restarts happen. -/
theorem applyIterationStrategy_exhaustion_witness :
    ((isTargetAchieved DFail (DFail.createTemplateParams 0) 0).1 = false) ∧
    (([[1, 2], [3]] : List (List ScAddr)) ≠ []) ∧
    ((∀ f st, ((DFail.useFormula f st).1).isGenerated = false)) ∧
    (([[1, 2], [3]] : List (List ScAddr)).flatten.length
        + ([[1, 2], [3]] : List (List ScAddr)).length < 10) ∧
    (∃ s2 lg, applyIterationStrategy DFail 10 [[1, 2], [3]] 0
      = some (Except.ok false,
          { store := s2,
            checked := ([[1, 2], [3]] : List (List ScAddr)).flatten,
            tried := ([[1, 2], [3]] : List (List ScAddr)).flatten,
            restarts := 0,
            log := (isTargetAchieved DFail (DFail.createTemplateParams 0) 0).2 ++ lg,
            solution := [] })) :=
  ⟨rfl, by decide, fun _ _ => rfl, by decide,
    applyIterationStrategy_exhaustion DFail [[1, 2], [3]] 0 10 rfl (by decide)
      (fun _ _ => rfl) (by decide)⟩

/-- Monotonicity of the tried log: the while loop only appends to it. -/
theorem driverWhile_tried_extends (G : DriverGateway σ) (pv : List ScTemplateParams) :
    ∀ (fuel : Nat) (queue : List ScAddr) (index : Nat) (st : DriverState σ)
      (r : Bool × Nat × DriverState σ),
      driverWhile G pv fuel queue index st = some r →
      ∃ ext, r.2.2.tried = st.tried ++ ext := by
  intro fuel
  induction fuel with
  | zero =>
    intro queue index st r hr
    cases queue with
    | nil =>
      simp only [driverWhile, Option.some.injEq] at hr
      exact ⟨[], by rw [← hr]; simp⟩
    | cons f rest => simp [driverWhile] at hr
  | succ fuel ih =>
    intro queue index st r hr
    cases queue with
    | nil =>
      simp only [driverWhile, Option.some.injEq] at hr
      exact ⟨[], by rw [← hr]; simp⟩
    | cons f rest =>
      simp only [driverWhile] at hr
      by_cases hg : ((G.useFormula f st.store).1).isGenerated = true
      · rw [if_pos hg] at hr
        by_cases ha : (isTargetAchieved G pv (G.useFormula f st.store).2.1).1 = true
        · rw [if_pos ha] at hr
          simp only [Option.some.injEq] at hr
          exact ⟨[f], by rw [← hr]⟩
        · rw [if_neg ha] at hr
          obtain ⟨ext, hext⟩ := ih _ _ _ _ hr
          exact ⟨[f] ++ ext, by rw [hext]; simp⟩
      · rw [if_neg hg] at hr
        obtain ⟨ext, hext⟩ := ih _ _ _ _ hr
        exact ⟨[f] ++ ext, by rw [hext]; simp⟩

/-- Membership in a deeper drop gives membership in a shallower drop. -/
theorem mem_drop_of_mem_drop_succ {l : List ScAddr} {n : Nat} {a : ScAddr}
    (h : a ∈ l.drop (n + 1)) : a ∈ l.drop n := by
  have h2 : a ∈ (l.drop n).drop 1 := by
    rw [List.drop_drop]
    exact h
  exact List.mem_of_mem_drop h2

/-- Completeness of the drain: when the while loop exits without achieving
the target, every formula of the entering queue was passed to useFormula
after the entry point of the loop. -/
theorem driverWhile_false_tried (G : DriverGateway σ) (pv : List ScTemplateParams) :
    ∀ (fuel : Nat) (queue : List ScAddr) (index : Nat) (st : DriverState σ)
      (i2 : Nat) (st2 : DriverState σ),
      driverWhile G pv fuel queue index st = some (false, i2, st2) →
      ∀ g ∈ queue, g ∈ st2.tried.drop st.tried.length := by
  intro fuel
  induction fuel with
  | zero =>
    intro queue index st i2 st2 hr g hgm
    cases queue with
    | nil => exact absurd hgm (List.not_mem_nil g)
    | cons f rest => simp [driverWhile] at hr
  | succ fuel ih =>
    intro queue index st i2 st2 hr g hgm
    cases queue with
    | nil => exact absurd hgm (List.not_mem_nil g)
    | cons f rest =>
      simp only [driverWhile] at hr
      by_cases hg : ((G.useFormula f st.store).1).isGenerated = true
      · rw [if_pos hg] at hr
        by_cases ha : (isTargetAchieved G pv (G.useFormula f st.store).2.1).1 = true
        · rw [if_pos ha] at hr
          simp only [Option.some.injEq, Prod.mk.injEq] at hr
          exact absurd hr.1 (by simp)
        · rw [if_neg ha] at hr
          rcases List.mem_cons.mp hgm with hgf | hgr
          · subst hgf
            obtain ⟨ext, hext⟩ := driverWhile_tried_extends G pv fuel _ _ _ _ hr
            simp only at hext
            rw [hext, List.append_assoc, List.drop_left]
            simp
          · have hmem := ih _ _ _ _ _ hr g (List.mem_append_left _ hgr)
            simp only [List.length_append, List.length_cons, List.length_nil] at hmem
            exact mem_drop_of_mem_drop_succ hmem
      · rw [if_neg hg] at hr
        rcases List.mem_cons.mp hgm with hgf | hgr
        · subst hgf
          obtain ⟨ext, hext⟩ := driverWhile_tried_extends G pv fuel _ _ _ _ hr
          simp only at hext
          rw [hext, List.append_assoc, List.drop_left]
          simp
        · have hmem := ih _ _ _ _ _ hr g hgr
          simp only [List.length_append, List.length_cons, List.length_nil] at hmem
          exact mem_drop_of_mem_drop_succ hmem

/-- Claim C4: when the front formula generates and the re-test of the target
fails, the while loop takes exactly the restart transition: every formula of
the checked list moves back into the working queue behind the remaining
formulas, the checked list is cleared, the tier index becomes zero, the
restart counter grows, and moreover every formula of the old checked list is
passed to useFormula again, strictly after this firing, whenever the
continued run terminates without achieving the target. -/
theorem driverWhile_restart (G : DriverGateway σ) (pv : List ScTemplateParams)
    (fuel : Nat) (f : ScAddr) (rest : List ScAddr) (index : Nat) (st : DriverState σ)
    (hgen : ((G.useFormula f st.store).1).isGenerated = true)
    (hret : (isTargetAchieved G pv (G.useFormula f st.store).2.1).1 = false) :
    driverWhile G pv (fuel + 1) (f :: rest) index st
      = driverWhile G pv fuel (rest ++ st.checked) 0
          { store := (G.useFormula f st.store).2.1,
            checked := [],
            tried := st.tried ++ [f],
            restarts := st.restarts + 1,
            log := (st.log ++ (G.useFormula f st.store).2.2)
              ++ (isTargetAchieved G pv (G.useFormula f st.store).2.1).2,
            solution := st.solution
              ++ (if G.generateSolutionTree then [(f, (G.useFormula f st.store).1.replacements)]
                  else []) }
    ∧ (∀ i2 st2,
        driverWhile G pv (fuel + 1) (f :: rest) index st = some (false, i2, st2) →
        ∀ g ∈ st.checked, g ∈ st2.tried.drop (st.tried.length + 1)) := by
  have hstep : driverWhile G pv (fuel + 1) (f :: rest) index st
      = driverWhile G pv fuel (rest ++ st.checked) 0
          { store := (G.useFormula f st.store).2.1,
            checked := [],
            tried := st.tried ++ [f],
            restarts := st.restarts + 1,
            log := (st.log ++ (G.useFormula f st.store).2.2)
              ++ (isTargetAchieved G pv (G.useFormula f st.store).2.1).2,
            solution := st.solution
              ++ (if G.generateSolutionTree then [(f, (G.useFormula f st.store).1.replacements)]
                  else []) } := by
    simp only [driverWhile]
    rw [if_pos hgen, if_neg (by rw [hret]; simp)]
  refine ⟨hstep, ?_⟩
  intro i2 st2 hr g hgm
  rw [hstep] at hr
  have hmem := driverWhile_false_tried G pv fuel _ _ _ _ _ hr g
    (List.mem_append_right rest hgm)
  simpa using hmem

/-- Witness for claim C4 at a concrete gateway whose formulas always fire
while the target stays unachieved, starting from a state with one checked
formula. -/
theorem driverWhile_restart_witness :
    (((DFire.useFormula 1 stFire.store).1).isGenerated = true) ∧
    ((isTargetAchieved DFire [[]] (DFire.useFormula 1 stFire.store).2.1).1 = false) ∧
    ((driverWhile DFire [[]] (5 + 1) (1 :: [2]) 0 stFire
      = driverWhile DFire [[]] 5 ([2] ++ stFire.checked) 0
          { store := (DFire.useFormula 1 stFire.store).2.1,
            checked := [],
            tried := stFire.tried ++ [1],
            restarts := stFire.restarts + 1,
            log := (stFire.log ++ (DFire.useFormula 1 stFire.store).2.2)
              ++ (isTargetAchieved DFire [[]] (DFire.useFormula 1 stFire.store).2.1).2,
            solution := stFire.solution
              ++ (if DFire.generateSolutionTree
                  then [(1, (DFire.useFormula 1 stFire.store).1.replacements)]
                  else []) })
    ∧ (∀ i2 st2,
        driverWhile DFire [[]] (5 + 1) (1 :: [2]) 0 stFire = some (false, i2, st2) →
        ∀ g ∈ stFire.checked, g ∈ st2.tried.drop (stFire.tried.length + 1))) :=
  ⟨rfl, rfl, driverWhile_restart DFire [[]] 5 1 [2] 0 stFire rfl rfl⟩

end Scl
